import Mathlib

/-!
Verification development for the backendnano.ai HTTP gateway (src/index.js and
its sibling revisions).  The JavaScript source is shallowly embedded: JS strings
are Lean `String`s (upstream byte chunks are modelled after `TextDecoder`
decoding, which resolves multi-byte characters split across read boundaries),
`JSON.parse` / `JSON.stringify` are modelled on a JSON value type (restricted to
integer numerals; no claim exercises fractional numbers), and the Express
response object is modelled as the list of `write`/`end` events it receives.
-/

/-- JSON values as produced by `JSON.parse`.  Numbers are restricted to the
integer fragment, which is the only fragment the repository's streams use. -/
inductive JVal where
  | null : JVal
  | bool (b : Bool) : JVal
  | num (n : Int) : JVal
  | str (s : String) : JVal
  | arr (elems : List JVal) : JVal
  | obj (fields : List (String × JVal)) : JVal

/-- JSON whitespace characters accepted between tokens by `JSON.parse`. -/
def isWsChar (c : Char) : Bool :=
  c = ' ' || c = '\t' || c = '\n' || c = '\r'

/-- Skip leading JSON whitespace. -/
def skipWs : List Char → List Char
  | [] => []
  | c :: cs => if isWsChar c then skipWs cs else c :: cs

/-- Value of a hexadecimal digit, if any. -/
def hexVal (c : Char) : Option Nat :=
  if '0' ≤ c ∧ c ≤ '9' then some (c.toNat - 48)
  else if 'a' ≤ c ∧ c ≤ 'f' then some (c.toNat - 87)
  else if 'A' ≤ c ∧ c ≤ 'F' then some (c.toNat - 55)
  else none

/-- Parse the body of a JSON string literal (the opening quote already
consumed), handling the escape sequences `JSON.parse` accepts and rejecting
raw control characters, as `JSON.parse` does. -/
def parseStrBody : List Char → List Char → Option (String × List Char)
  | _, [] => none
  | acc, '"' :: rest => some (⟨acc.reverse⟩, rest)
  | acc, '\\' :: rest =>
    match rest with
    | 'u' :: h1 :: h2 :: h3 :: h4 :: r2 =>
      match hexVal h1, hexVal h2, hexVal h3, hexVal h4 with
      | some a, some b, some c, some d =>
        parseStrBody (Char.ofNat (((a * 16 + b) * 16 + c) * 16 + d) :: acc) r2
      | _, _, _, _ => none
    | '"' :: r2 => parseStrBody ('"' :: acc) r2
    | '\\' :: r2 => parseStrBody ('\\' :: acc) r2
    | '/' :: r2 => parseStrBody ('/' :: acc) r2
    | 'n' :: r2 => parseStrBody ('\n' :: acc) r2
    | 't' :: r2 => parseStrBody ('\t' :: acc) r2
    | 'r' :: r2 => parseStrBody ('\r' :: acc) r2
    | 'b' :: r2 => parseStrBody ('\x08' :: acc) r2
    | 'f' :: r2 => parseStrBody ('\x0c' :: acc) r2
    | _ => none
  | acc, c :: rest =>
    if c.toNat < 32 then none else parseStrBody (c :: acc) rest

/-- Consume a maximal run of decimal digits. -/
def takeDigits : List Char → List Char × List Char
  | [] => ([], [])
  | c :: cs =>
    if '0' ≤ c ∧ c ≤ '9' then
      let (ds, rest) := takeDigits cs
      (c :: ds, rest)
    else ([], c :: cs)

/-- Numeric value of a digit run. -/
def digitsVal (ds : List Char) : Nat :=
  ds.foldl (fun acc c => acc * 10 + (c.toNat - 48)) 0

/-- Parse an integer JSON number (fractional or exponent forms are outside the
modelled fragment and are rejected). -/
def parseNum (cs : List Char) : Option (JVal × List Char) :=
  match cs with
  | '-' :: cs2 =>
    match takeDigits cs2 with
    | ([], _) => none
    | (ds, rest) =>
      match rest with
      | '.' :: _ => none
      | 'e' :: _ => none
      | 'E' :: _ => none
      | _ => some (.num (-(digitsVal ds : Int)), rest)
  | _ =>
    match takeDigits cs with
    | ([], _) => none
    | (ds, rest) =>
      match rest with
      | '.' :: _ => none
      | 'e' :: _ => none
      | 'E' :: _ => none
      | _ => some (.num (digitsVal ds), rest)

/-- Fuel-indexed JSON value parser.  Arrays and objects continue after a comma
by re-entering the parser with the opening bracket re-attached, rejecting
trailing commas as `JSON.parse` does. -/
def parseVal : Nat → List Char → Option (JVal × List Char)
  | 0, _ => none
  | fuel + 1, cs =>
    match skipWs cs with
    | 'n' :: 'u' :: 'l' :: 'l' :: rest => some (.null, rest)
    | 't' :: 'r' :: 'u' :: 'e' :: rest => some (.bool true, rest)
    | 'f' :: 'a' :: 'l' :: 's' :: 'e' :: rest => some (.bool false, rest)
    | '"' :: rest =>
      match parseStrBody [] rest with
      | some (s, r) => some (.str s, r)
      | none => none
    | '[' :: rest =>
      match skipWs rest with
      | ']' :: r2 => some (.arr [], r2)
      | cs2 =>
        match parseVal fuel cs2 with
        | none => none
        | some (v, r) =>
          match skipWs r with
          | ',' :: r2 =>
            match skipWs r2 with
            | ']' :: _ => none
            | _ =>
              match parseVal fuel ('[' :: r2) with
              | some (.arr vs, r3) => some (.arr (v :: vs), r3)
              | _ => none
          | ']' :: r2 => some (.arr [v], r2)
          | _ => none
    | '{' :: rest =>
      match skipWs rest with
      | '}' :: r2 => some (.obj [], r2)
      | '"' :: r2 =>
        match parseStrBody [] r2 with
        | none => none
        | some (k, r3) =>
          match skipWs r3 with
          | ':' :: r4 =>
            match parseVal fuel r4 with
            | none => none
            | some (v, r5) =>
              match skipWs r5 with
              | ',' :: r6 =>
                match skipWs r6 with
                | '}' :: _ => none
                | _ =>
                  match parseVal fuel ('{' :: r6) with
                  | some (.obj kvs, r7) => some (.obj ((k, v) :: kvs), r7)
                  | _ => none
              | '}' :: r6 => some (.obj [(k, v)], r6)
              | _ => none
          | _ => none
      | _ => none
    | cs2 => parseNum cs2

/-- Model of `JSON.parse`: `none` models a thrown `SyntaxError`. -/
def jsonParse (s : String) : Option JVal :=
  match parseVal (s.data.length + 2) s.data with
  | some (v, rest) => if skipWs rest = [] then some v else none
  | none => none

/-- Hexadecimal digit character for a value below 16. -/
def hexDigit (n : Nat) : Char :=
  if n < 10 then Char.ofNat (48 + n) else Char.ofNat (87 + n)

/-- Escape one character the way `JSON.stringify` escapes string contents. -/
def escChar (c : Char) : List Char :=
  if c = '"' then ['\\', '"']
  else if c = '\\' then ['\\', '\\']
  else if c = '\n' then ['\\', 'n']
  else if c = '\r' then ['\\', 'r']
  else if c = '\t' then ['\\', 't']
  else if c = '\x08' then ['\\', 'b']
  else if c = '\x0c' then ['\\', 'f']
  else if c.toNat < 32 then
    ['\\', 'u', '0', '0', hexDigit (c.toNat / 16), hexDigit (c.toNat % 16)]
  else [c]

/-- Serialize a string as a JSON string literal, `JSON.stringify`-style. -/
def quoteStr (s : String) : String :=
  ⟨'"' :: s.data.foldr (fun c acc => escChar c ++ acc) ['"']⟩

mutual

/-- Model of `JSON.stringify` on parsed values. -/
def jsonStringify : JVal → String
  | .null => "null"
  | .bool true => "true"
  | .bool false => "false"
  | .num n => toString n
  | .str s => quoteStr s
  | .arr xs => "[" ++ stringifyElems xs ++ "]"
  | .obj kvs => "\x7b" ++ stringifyFields kvs ++ "\x7d"

/-- Serialize the elements of a JSON array, comma separated. -/
def stringifyElems : List JVal → String
  | [] => ""
  | [v] => jsonStringify v
  | v :: vs => jsonStringify v ++ "," ++ stringifyElems vs

/-- Serialize the fields of a JSON object, comma separated. -/
def stringifyFields : List (String × JVal) → String
  | [] => ""
  | [kv] => quoteStr kv.1 ++ ":" ++ jsonStringify kv.2
  | kv :: kvs => quoteStr kv.1 ++ ":" ++ jsonStringify kv.2 ++ "," ++ stringifyFields kvs

end

example : jsonParse "\x7b\"choices\":[\x7b\"delta\":\x7b\"content\":\"A\"\x7d\x7d]\x7d"
    = some (.obj [("choices", .arr [.obj [("delta", .obj [("content", .str "A")])]])]) := rfl

example : jsonParse "\x7boops" = none := rfl

example : jsonStringify (.obj [("content", .str "A")]) = "\x7b\"content\":\"A\"\x7d" := rfl

/-- Property lookup on a parsed JSON value, following JavaScript semantics:
objects look their key up with later duplicate keys winning, every other value
yields `undefined` (modelled as `none`). -/
def jsProp : JVal → String → Option JVal
  | .obj kvs, k => kvs.foldl (fun acc kv => if kv.1 = k then some kv.2 else acc) none
  | _, _ => none

/-- Index access `v[0]` on a parsed JSON value, following JavaScript semantics:
arrays yield their head, strings their first character, objects their `"0"`
property; numbers and booleans yield `undefined`. -/
def jsIndex0 : JVal → Option JVal
  | .arr xs => xs.head?
  | .str s => s.data.head?.map (fun c => .str ⟨[c]⟩)
  | .obj kvs => jsProp (.obj kvs) "0"
  | _ => none

/-- The expression `parsed.choices[0]?.delta?.content` from
`processStreamResponse` (src/index.js line 104).  `.error ()` models a thrown
`TypeError` (property access on `undefined` or `null`), which the surrounding
`try` swallows; `.ok none` models the expression evaluating to `undefined`. -/
def deltaOfParsed (parsed : JVal) : Except Unit (Option JVal) :=
  match parsed with
  | .null => .error ()
  | p =>
    match jsProp p "choices" with
    | none => .error ()
    | some .null => .error ()
    | some choices =>
      match jsIndex0 choices with
      | none => .ok none
      | some .null => .ok none
      | some elem =>
        match jsProp elem "delta" with
        | none => .ok none
        | some .null => .ok none
        | some d => .ok (jsProp d "content")

/-- JavaScript truthiness of a parsed JSON value. -/
def truthy : JVal → Bool
  | .null => false
  | .bool b => b
  | .num n => n ≠ 0
  | .str s => s ≠ ""
  | .arr _ => true
  | .obj _ => true

/-- The delta value a relay line contributes, combining lines 102-108 of
src/index.js: `JSON.parse` (parse failure caught, yielding no write), the
`choices[0]?.delta?.content` extraction (`TypeError` caught, yielding no
write), the `|| ''` defaulting and the `if (content)` truthiness guard.
`some v` means the code writes the delta event for `v`. -/
def contentOf (message : String) : Option JVal :=
  match jsonParse message with
  | none => none
  | some parsed =>
    match deltaOfParsed parsed with
    | .error _ => none
    | .ok none => none
    | .ok (some v) => if truthy v then some v else none

/-- An effect performed on the Express response object `res`. -/
inductive REvent where
  | write (s : String) : REvent
  | ended : REvent
deriving DecidableEq

/-- The terminal SSE line the relay writes. -/
def doneWrite : String := "data: [DONE]\n\n"

/-- The relay's `data: ${JSON.stringify({ content })}\n\n` client event. -/
def deltaEvent (v : JVal) : String :=
  "data: " ++ jsonStringify (.obj [("content", v)]) ++ "\n\n"

/-- Whitespace characters removed by the JavaScript `String.prototype.trim`
(restricted to the ASCII ones that can occur in an SSE stream). -/
def isJsWs (c : Char) : Bool :=
  c = ' ' || c = '\t' || c = '\n' || c = '\r' || c = '\x0b' || c = '\x0c'

/-- Model of the JavaScript `line.trim()`. -/
def jsTrim (s : String) : String :=
  ⟨((s.data.dropWhile isJsWs).reverse.dropWhile isJsWs).reverse⟩

/-- Whether `p` is an initial segment of `s` (JavaScript `s.startsWith(p)`). -/
def listStartsWith : List Char → List Char → Bool
  | _, [] => true
  | [], _ :: _ => false
  | c :: cs, p :: ps => c = p && listStartsWith cs ps

/-- The `line.replace(/^data: /, '')` step of the relay: the anchored pattern
removes one leading `data: ` occurrence and leaves other lines unchanged. -/
def stripData (line : String) : String :=
  if listStartsWith line.data "data: ".data then ⟨line.data.drop 6⟩ else line

/-- Effects of one loop iteration over a non-blank line of a chunk
(src/index.js lines 94-112): the `[DONE]` sentinel writes the terminal line,
ends the response and returns; otherwise a truthy extracted delta is written
and anything else is skipped. -/
def lineStep (line : String) : List REvent × Bool :=
  let message := stripData line
  if message = "[DONE]" then ([.write doneWrite, .ended], true)
  else
    match contentOf message with
    | some v => ([.write (deltaEvent v)], false)
    | none => ([], false)

/-- Run `lineStep` over the lines of one chunk, stopping at `[DONE]`. -/
def runLines : List String → List REvent × Bool
  | [] => ([], false)
  | l :: ls =>
    let r := lineStep l
    if r.2 then (r.1, true)
    else
      let r2 := runLines ls
      (r.1 ++ r2.1, r2.2)

/-- Split a character list at a separator character, mirroring the JavaScript
`s.split(sep)` for one-character separators (consecutive separators yield
empty segments). -/
def splitCh (sep : Char) : List Char → List (List Char)
  | [] => [[]]
  | c :: cs =>
    if c = sep then [] :: splitCh sep cs
    else
      match splitCh sep cs with
      | g :: gs => (c :: g) :: gs
      | [] => [[c]]

/-- The JavaScript `s.split(sep)` on strings. -/
def jsSplit (sep : Char) (s : String) : List String :=
  (splitCh sep s.data).map (fun l => (⟨l⟩ : String))

/-- The `chunk.split('\n').filter(line => line.trim() !== '')` step of the
relay (src/index.js line 92). -/
def chunkLines (c : String) : List String :=
  (jsSplit '\n' c).filter (fun l => jsTrim l != "")

/-- Run the relay loop over the decoded chunks delivered by the upstream
reader, stopping when a chunk contains the `[DONE]` sentinel. -/
def runChunks : List String → List REvent × Bool
  | [] => ([], false)
  | c :: cs =>
    let r := runLines (chunkLines c)
    if r.2 then (r.1, true)
    else
      let r2 := runChunks cs
      (r.1 ++ r2.1, r2.2)

/-- The `processStreamResponse` relay of src/index.js lines 78-113 on an
upstream that delivers `chunks` and then signals `done`: the `[DONE]` sentinel
(if any) ends the response early, otherwise the reader's `done` branch writes
the terminal line and ends the response. -/
def processStream (chunks : List String) : List REvent :=
  let r := runChunks chunks
  if r.2 then r.1 else r.1 ++ [.write doneWrite, .ended]

/-- The `processStreamResponse` relay when the upstream read fails with
message `msg` after delivering `chunks`: the catch of src/index.js lines
114-118 writes an inline error and ends the response (unless the `[DONE]`
sentinel already ended it, in which case the function has already returned). -/
def processStreamErr (chunks : List String) (msg : String) : List REvent :=
  let r := runChunks chunks
  if r.2 then r.1
  else r.1 ++ [.write ("data: [ERROR] " ++ msg ++ "\n\n"), .ended]

example :
    processStream ["data: \x7b\"choices\":[\x7b\"delta\":\x7b\"content\":\"A\"\x7d\x7d]\x7d\n\n",
      "data: [DONE]\n\n"]
      = [.write "data: \x7b\"content\":\"A\"\x7d\n\n", .write "data: [DONE]\n\n", .ended] := rfl

/-- One entry of a ZIP archive as enumerated by `zip.files` (insertion order);
`content` is the result of `zip.files[name].async('string')`, with `.error`
modelling a rejection (binary entry). -/
structure ZipEntry where
  name : String
  dir : Bool
  content : Except String String

/-- Results of the external parsing libraries applied to a file's buffer
(`pdf-parse`, `mammoth`, `JSZip`, `Buffer.toString('utf-8')`).  An `.error`
models a rejected promise or thrown exception inside the corresponding call. -/
structure FileOracles where
  pdfText : Except String String
  docxText : Except String String
  zipLoad : Except String (List ZipEntry)
  utf8Text : String

/-- A multer in-memory upload as consumed by `extractTextFromFile`. -/
structure UploadedFile where
  mimetype : String
  originalname : String
  oracles : FileOracles

/-- The text-like MIME condition of src/index.js lines 58-64. -/
def isTextLike (m : String) : Bool :=
  listStartsWith m.data "text/".data || m == "application/json" ||
  m == "application/javascript" || m == "application/xml" ||
  m == "text/html" || m == "text/css" || m == "text/java"

/-- The contribution of one archive entry to the ZIP extraction result
(src/index.js lines 47-56): directories are skipped, decodable entries are
emitted as labelled blocks, failing entries as a binary marker. -/
def zipBlock (e : ZipEntry) : String :=
  if e.dir then ""
  else
    match e.content with
    | .ok c => "--- File: " ++ e.name ++ " ---\n" ++ c ++ "\n\n"
    | .error _ => "--- File: " ++ e.name ++ " (binary file, content not shown) ---\n\n"

/-- The body of the `try` block of `extractTextFromFile` (src/index.js lines
36-70); `.error` models an exception escaping to the catch on line 71. -/
def extractBody (f : UploadedFile) : Except String String :=
  if f.mimetype == "application/pdf" then
    f.oracles.pdfText
  else if f.mimetype == "application/vnd.openxmlformats-officedocument.wordprocessingml.document" then
    f.oracles.docxText
  else if f.mimetype == "application/zip" then
    match f.oracles.zipLoad with
    | .error e => .error e
    | .ok entries =>
      .ok (("ZIP file content '" ++ f.originalname ++ "':\n\n")
        ++ String.join (entries.map zipBlock))
  else if isTextLike f.mimetype then
    .ok f.oracles.utf8Text
  else if listStartsWith f.mimetype.data "image/".data then
    .ok ("[Image file: " ++ f.originalname ++ "]")
  else
    .ok ("[Unsupported file type: " ++ f.mimetype ++ ". File name: " ++ f.originalname ++ "]")

/-- The full `extractTextFromFile` of src/index.js lines 33-75: absent files
yield the empty string and every internal failure degrades to a placeholder,
so the function always returns a string to its caller. -/
def extractTextFromFile : Option UploadedFile → String
  | none => ""
  | some f =>
    match extractBody f with
    | .ok s => s
    | .error _ => "[File processing error: " ++ f.originalname ++ "]"

/-- The prompt composition of src/index.js line 132 (and line 406):
`fileContent ? `${prompt}\n\nFile content:\n${fileContent}` : prompt`. -/
def fullPromptOf (prompt fileContent : String) : String :=
  if fileContent ≠ "" then prompt ++ "\n\nFile content:\n" ++ fileContent
  else prompt

/-- An invocation of one of the provider adapter functions: which function was
called, the upstream model identifier it sends (`none` models the JavaScript
`undefined`), and the prompt it received. -/
structure AdapterCall where
  provider : String
  model : Option String
  prompt : String
deriving DecidableEq

/-- A JavaScript exception reaching the router's catch: the `TypeError` from a
property access on `undefined`, or an `Error` thrown with a message. -/
inductive JsErr where
  | typeError : JsErr
  | thrown (msg : String) : JsErr
deriving DecidableEq

/-- The terminal outcome of a `POST /api/chat` request. -/
inductive ChatOutcome where
  | badRequest (error : String) : ChatOutcome
  | ok (response : String) : ChatOutcome
  | serverError (e : JsErr) : ChatOutcome
deriving DecidableEq

/-- The model-selection `switch` of src/index.js lines 137-170, returning the
adapter invocation it performs.  The `default` branch evaluates
`model.startsWith('openrouter/')`, a `TypeError` when `model` is `undefined`;
otherwise it picks `model.split('/')[2]` for `openrouter/`-prefixed selectors
and the fixed `'deepseek/deepseek-chat'` for all other selectors. -/
def chatDispatch (model? : Option String) (fullPrompt origPrompt : String) :
    Except JsErr AdapterCall :=
  if model? = some "google/gemini-1.5-flash" then
    .ok ⟨"callGoogleGemini", some "gemini-1.5-flash", fullPrompt⟩
  else if model? = some "deepseek-ai/deepseek-coder" then
    .ok ⟨"callDeepSeekAPI", some "deepseek-coder", fullPrompt⟩
  else if model? = some "openai/gpt-4o" then
    .ok ⟨"callOpenAIChat", some "gpt-4o", fullPrompt⟩
  else if model? = some "openai/dalle-3" then
    .ok ⟨"callDALLE", some "dall-e-3", origPrompt⟩
  else if model? = some "deepseek-ai/deepseek-r1" then
    .ok ⟨"callDeepSeekR1", some "deepseek-r1", fullPrompt⟩
  else if model? = some "together-ai/deepseek-r1" then
    .ok ⟨"callTogetherAI", some "deepseek-ai/DeepSeek-R1", fullPrompt⟩
  else if model? = some "together-ai/gpt-4.1-nano" then
    .ok ⟨"callTogetherAIGPT4Nano", some "gpt-4.1-nano", fullPrompt⟩
  else
    match model? with
    | none => .error .typeError
    | some model =>
      let openRouterModel :=
        if listStartsWith model.data "openrouter/".data then (jsSplit '/' model).get? 2
        else some "deepseek/deepseek-chat"
      .ok ⟨"callOpenRouter", openRouterModel, fullPrompt⟩

/-- The `POST /api/chat` handler of src/index.js lines 122-178.  `upstream`
models the network behaviour of the selected provider (success body or thrown
`UpstreamError`).  The result pairs the HTTP outcome with the list of adapter
invocations actually performed. -/
def chatHandler (upstream : AdapterCall → Except String String)
    (prompt? model? : Option String) (file? : Option UploadedFile) :
    ChatOutcome × List AdapterCall :=
  match prompt? with
  | none => (.badRequest "Prompt is required", [])
  | some prompt =>
    if prompt = "" then (.badRequest "Prompt is required", [])
    else
      let fileContent := extractTextFromFile file?
      let fullPrompt := fullPromptOf prompt fileContent
      match chatDispatch model? fullPrompt prompt with
      | .error e => (.serverError e, [])
      | .ok call =>
        match upstream call with
        | .ok reply => (.ok reply, [call])
        | .error msg => (.serverError (.thrown msg), [call])

/-- Behaviour of the upstream `fetch` + body inside a streaming helper:
a 2xx reply whose reader delivers `chunks` then `done`; a non-2xx reply with
the given `statusText` (the helper throws before relaying anything); or a 2xx
reply whose reader fails with `msg` after delivering `chunks`. -/
inductive FetchResult where
  | ok (chunks : List String) : FetchResult
  | fail (statusText : String) : FetchResult
  | okThenFail (chunks : List String) (msg : String) : FetchResult
deriving DecidableEq

/-- The terminal outcome of a `POST /api/chat-stream` request: a 400 JSON
reply, or an SSE response whose effects on `res` are the recorded events. -/
inductive StreamOutcome where
  | badRequest (error : String) : StreamOutcome
  | stream (evs : List REvent) : StreamOutcome
deriving DecidableEq

/-- Effects of one of the streaming helpers (`streamOpenAIResponse` and
friends, src/index.js lines 438-519) for a given fetch behaviour: a non-2xx
reply throws `<label><statusText>` which the helper's own catch surfaces as an
inline `[ERROR]` event, and a 2xx reply is handed to `processStreamResponse`. -/
def upstreamEvents (errLabel : String) (fr : FetchResult) : List REvent :=
  match fr with
  | .ok chunks => processStream chunks
  | .fail st => [.write ("data: [ERROR] " ++ errLabel ++ st ++ "\n\n"), .ended]
  | .okThenFail chunks msg => processStreamErr chunks msg

/-- The `POST /api/chat-stream` handler of src/index.js lines 396-435: after
the prompt guard it sets the SSE headers and dispatches on the exact selector
strings of lines 415-428, writing an inline error for any other selector.
The result pairs the outcome with the list of upstream endpoints fetched. -/
def chatStreamHandler (prompt? model? : Option String) (file? : Option UploadedFile)
    (fr : FetchResult) : StreamOutcome × List (String × String) :=
  match prompt? with
  | none => (.badRequest "Prompt is required", [])
  | some prompt =>
    if prompt = "" then (.badRequest "Prompt is required", [])
    else
      let fileContent := extractTextFromFile file?
      let fullPrompt := fullPromptOf prompt fileContent
      if model? = some "openai/gpt-4o" then
        (.stream (upstreamEvents "OpenAI API error: " fr),
          [("https://api.openai.com/v1/chat/completions", fullPrompt)])
      else if model? = some "together-ai/deepseek-r1" then
        (.stream (upstreamEvents "Together AI error: " fr),
          [("https://api.together.xyz/v1/chat/completions", fullPrompt)])
      else if model? = some "openrouter/deepseek/deepseek-r1" then
        (.stream (upstreamEvents "OpenRouter API error: " fr),
          [("https://openrouter.ai/api/v1/chat/completions", fullPrompt)])
      else
        (.stream [.write "data: [ERROR] Streaming not supported for this model\n\n", .ended], [])

/-- An adapter environment in which every upstream call succeeds. -/
def upstreamOk : AdapterCall → Except String String := fun _ => .ok "reply"

/-- C1: for an upstream SSE stream delivering the `A` delta line, the `B`
delta line and then `data: [DONE]`, `processStreamResponse` writes to the
client exactly the events `data: {"content":"A"}`, `data: {"content":"B"}`
and `data: [DONE]` (each `\n\n`-terminated), in that order, ends the
response, and writes the terminal `[DONE]` marker exactly once. -/
theorem c1_relay_exact_events :
    processStream
      ["data: \x7b\"choices\":[\x7b\"delta\":\x7b\"content\":\"A\"\x7d\x7d]\x7d\n\n",
       "data: \x7b\"choices\":[\x7b\"delta\":\x7b\"content\":\"B\"\x7d\x7d]\x7d\n\n",
       "data: [DONE]\n\n"]
      = [.write "data: \x7b\"content\":\"A\"\x7d\n\n",
         .write "data: \x7b\"content\":\"B\"\x7d\n\n",
         .write "data: [DONE]\n\n", .ended]
    ∧ (processStream
        ["data: \x7b\"choices\":[\x7b\"delta\":\x7b\"content\":\"A\"\x7d\x7d]\x7d\n\n",
         "data: \x7b\"choices\":[\x7b\"delta\":\x7b\"content\":\"B\"\x7d\x7d]\x7d\n\n",
         "data: [DONE]\n\n"]).count (.write doneWrite) = 1 := by
  exact ⟨rfl, by decide⟩

/-- C7: composing a prompt with empty extracted text is the identity on the
prompt, byte for byte (src/index.js line 132). -/
theorem c7_compose_empty_is_identity (p : String) : fullPromptOf p "" = p := by
  simp [fullPromptOf]

/-- C5: the claim that an omitted `model` field falls back to the default
provider/model pair is contradicted by the code: with `model` undefined the
`switch` reaches the `default` branch, `model.startsWith('openrouter/')`
throws a `TypeError`, and the catch turns the request into an HTTP 500 with
zero adapter invocations, for every upstream behaviour and uploaded file. -/
theorem c5_missing_model_is_server_error
    (upstream : AdapterCall → Except String String) (file? : Option UploadedFile) :
    chatHandler upstream (some "hello") none file? = (.serverError .typeError, []) := rfl

/-- C4 counterexample: the selector `openrouter/deepseek/deepseek-chat` makes
the code call OpenRouter with upstream model `model.split('/')[2]`, which is
`"deepseek-chat"`, not the claimed `"deepseek/deepseek-chat"`. -/
theorem c4_counterexample :
    chatHandler upstreamOk (some "hi") (some "openrouter/deepseek/deepseek-chat") none
      = (.ok "reply", [⟨"callOpenRouter", some "deepseek-chat", "hi"⟩])
    ∧ (some "deepseek-chat" : Option String) ≠ some "deepseek/deepseek-chat" := by
  exact ⟨rfl, by decide⟩

/-- C4 amended: `openrouter/deepseek/deepseek-chat` resolves to the OpenRouter
adapter invoked with upstream model `"deepseek-chat"` (the third
slash-segment), and an unrecognized selector such as `unknown/thing` resolves
to the OpenRouter adapter with the fixed default `"deepseek/deepseek-chat"`
rather than producing an error. -/
theorem c4_selector_resolution (p r1 r2 : String)
    (upstream : AdapterCall → Except String String) (hp : p ≠ "")
    (h1 : upstream ⟨"callOpenRouter", some "deepseek-chat", p⟩ = .ok r1)
    (h2 : upstream ⟨"callOpenRouter", some "deepseek/deepseek-chat", p⟩ = .ok r2) :
    chatHandler upstream (some p) (some "openrouter/deepseek/deepseek-chat") none
      = (.ok r1, [⟨"callOpenRouter", some "deepseek-chat", p⟩])
    ∧ chatHandler upstream (some p) (some "unknown/thing") none
      = (.ok r2, [⟨"callOpenRouter", some "deepseek/deepseek-chat", p⟩]) := by
  constructor <;>
    simp [chatHandler, chatDispatch, extractTextFromFile, fullPromptOf, hp, h1, h2,
      jsSplit, splitCh, listStartsWith]

/-- Witness for `c4_selector_resolution` at concrete inputs. -/
theorem c4_selector_resolution_witness :
    chatHandler upstreamOk (some "hi") (some "openrouter/deepseek/deepseek-chat") none
      = (.ok "reply", [⟨"callOpenRouter", some "deepseek-chat", "hi"⟩])
    ∧ chatHandler upstreamOk (some "hi") (some "unknown/thing") none
      = (.ok "reply", [⟨"callOpenRouter", some "deepseek/deepseek-chat", "hi"⟩]) :=
  c4_selector_resolution "hi" "reply" "reply" upstreamOk (by decide) rfl rfl

/-- C3 counterexample: when the upstream fetch of `/api/chat-stream` fails
after the SSE headers are set, the client receives the raw event
`data: [ERROR] OpenAI API error: Bad Gateway` and the response is ended; the
event sequence contains no `data: [DONE]` terminal line and the error event
is not wrapped in the claimed `data: {"content": ...}` JSON shape. -/
theorem c3_counterexample :
    (chatStreamHandler (some "hi") (some "openai/gpt-4o") none (.fail "Bad Gateway")).1
      = .stream [.write "data: [ERROR] OpenAI API error: Bad Gateway\n\n", .ended]
    ∧ REvent.write doneWrite
        ∉ [REvent.write "data: [ERROR] OpenAI API error: Bad Gateway\n\n", REvent.ended]
    ∧ ("data: [ERROR] OpenAI API error: Bad Gateway\n\n").data.get? 6 ≠ some '\x7b' := by
  refine ⟨rfl, by decide, by decide⟩

/-- C3 amended: a failure after streaming began (non-2xx upstream reply, or a
read error after some chunks relayed without a `[DONE]` sentinel) surfaces as
the inline event `data: [ERROR] <message>\n\n` after which the response is
ended — with no trailing `data: [DONE]` line and never a raw HTTP 500 after
headers are sent (the outcome stays a stream, not a status reply). -/
theorem c3_stream_error_events (p st msg : String) (chunks : List String)
    (evs : List REvent) (hp : p ≠ "") (hrun : runChunks chunks = (evs, false)) :
    (chatStreamHandler (some p) (some "openai/gpt-4o") none (.fail st)).1
      = .stream [.write ("data: [ERROR] OpenAI API error: " ++ st ++ "\n\n"), .ended]
    ∧ (chatStreamHandler (some p) (some "openai/gpt-4o") none (.okThenFail chunks msg)).1
      = .stream (evs ++ [.write ("data: [ERROR] " ++ msg ++ "\n\n"), .ended]) := by
  constructor <;>
    simp [chatStreamHandler, upstreamEvents, processStreamErr, hp, hrun]

/-- Witness for `c3_stream_error_events` at concrete inputs. -/
theorem c3_stream_error_events_witness :
    (chatStreamHandler (some "hi") (some "openai/gpt-4o") none (.fail "Bad Gateway")).1
      = .stream [.write "data: [ERROR] OpenAI API error: Bad Gateway\n\n", .ended]
    ∧ (chatStreamHandler (some "hi") (some "openai/gpt-4o") none
        (.okThenFail ["data: \x7b\"choices\":[\x7b\"delta\":\x7b\"content\":\"A\"\x7d\x7d]\x7d\n"]
          "socket hang up")).1
      = .stream [.write "data: \x7b\"content\":\"A\"\x7d\n\n",
          .write "data: [ERROR] socket hang up\n\n", .ended] :=
  c3_stream_error_events "hi" "Bad Gateway" "socket hang up"
    ["data: \x7b\"choices\":[\x7b\"delta\":\x7b\"content\":\"A\"\x7d\x7d]\x7d\n"]
    [.write "data: \x7b\"content\":\"A\"\x7d\n\n"] (by decide) rfl

/-- C2 counterexample: the same upstream byte stream, split into chunks in the
middle of the `data:` line instead of delivered whole, loses the `A` delta:
the relay splits each chunk on newlines independently and keeps no partial
line across reads. -/
theorem c2_counterexample :
    "data: \x7b\"choices\":[\x7b\"de" ++ "lta\":\x7b\"content\":\"A\"\x7d\x7d]\x7d\n"
      = "data: \x7b\"choices\":[\x7b\"delta\":\x7b\"content\":\"A\"\x7d\x7d]\x7d\n"
    ∧ processStream ["data: \x7b\"choices\":[\x7b\"delta\":\x7b\"content\":\"A\"\x7d\x7d]\x7d\n"]
        = [.write "data: \x7b\"content\":\"A\"\x7d\n\n", .write doneWrite, .ended]
    ∧ processStream ["data: \x7b\"choices\":[\x7b\"de", "lta\":\x7b\"content\":\"A\"\x7d\x7d]\x7d\n"]
        = [.write doneWrite, .ended]
    ∧ processStream ["data: \x7b\"choices\":[\x7b\"de", "lta\":\x7b\"content\":\"A\"\x7d\x7d]\x7d\n"]
        ≠ processStream ["data: \x7b\"choices\":[\x7b\"delta\":\x7b\"content\":\"A\"\x7d\x7d]\x7d\n"] := by
  refine ⟨by decide, rfl, rfl, by decide⟩

/-- C8: a missing or empty prompt is answered with the 400 error
`Prompt is required` by both `/api/chat` and `/api/chat-stream`, and no
adapter is invoked and no upstream endpoint fetched. -/
theorem c8_prompt_required (p? m? : Option String) (f? : Option UploadedFile)
    (upstream : AdapterCall → Except String String) (fr : FetchResult)
    (hp : p? = none ∨ p? = some "") :
    chatHandler upstream p? m? f? = (.badRequest "Prompt is required", [])
    ∧ chatStreamHandler p? m? f? fr = (.badRequest "Prompt is required", []) := by
  rcases hp with h | h <;> subst h <;> exact ⟨rfl, rfl⟩

/-- Witness for `c8_prompt_required` at concrete inputs. -/
theorem c8_prompt_required_witness :
    chatHandler upstreamOk (some "") (some "openai/gpt-4o") none
      = (.badRequest "Prompt is required", [])
    ∧ chatStreamHandler (some "") (some "openai/gpt-4o") none (.ok [])
      = (.badRequest "Prompt is required", []) :=
  c8_prompt_required _ _ _ _ _ (Or.inr rfl)

/-- The MIME types given a dedicated branch by `extractTextFromFile`
(src/index.js lines 37-67); everything else falls to the final `else`. -/
def mimeHandled (m : String) : Bool :=
  m == "application/pdf"
  || m == "application/vnd.openxmlformats-officedocument.wordprocessingml.document"
  || m == "application/zip"
  || isTextLike m
  || listStartsWith m.data "image/".data

/-- C6: `extractTextFromFile` always returns a string to its caller: an absent
file yields the empty string, an unsupported MIME type yields a placeholder
naming both the MIME type and the filename, and an exception escaping any
parser is caught and replaced by a processing-error placeholder naming the
file, so extraction never aborts the request. -/
theorem c6_extract_never_throws (f : UploadedFile) (e : String) :
    extractTextFromFile none = ""
    ∧ (mimeHandled f.mimetype = false →
        extractTextFromFile (some f)
          = "[Unsupported file type: " ++ f.mimetype ++ ". File name: "
            ++ f.originalname ++ "]")
    ∧ (extractBody f = .error e →
        extractTextFromFile (some f)
          = "[File processing error: " ++ f.originalname ++ "]") := by
  refine ⟨rfl, fun h => ?_, fun h => ?_⟩
  · simp only [mimeHandled, Bool.or_eq_false_iff] at h
    obtain ⟨⟨⟨⟨h1, h2⟩, h3⟩, h4⟩, h5⟩ := h
    simp [extractTextFromFile, extractBody, h1, h2, h3, h4, h5]
  · simp [extractTextFromFile, h]

/-- Oracles of a file whose parsers all succeed. -/
def oraclesGood : FileOracles := ⟨.ok "pdf text", .ok "docx text", .ok [], "plain text"⟩

/-- Oracles of a PDF whose parser rejects. -/
def oraclesBad : FileOracles := ⟨.error "bad xref", .ok "", .ok [], ""⟩

/-- An upload with a MIME type no branch handles. -/
def fileUnsupported : UploadedFile := ⟨"application/octet-stream", "a.bin", oraclesGood⟩

/-- A PDF upload whose parse fails. -/
def filePdfBad : UploadedFile := ⟨"application/pdf", "doc.pdf", oraclesBad⟩

/-- Witness for `c6_extract_never_throws` at concrete files. -/
theorem c6_extract_never_throws_witness :
    extractTextFromFile (some fileUnsupported)
      = "[Unsupported file type: application/octet-stream. File name: a.bin]"
    ∧ extractTextFromFile (some filePdfBad) = "[File processing error: doc.pdf]" := by
  constructor
  · exact (c6_extract_never_throws fileUnsupported "e").2.1 (by rfl)
  · exact (c6_extract_never_throws filePdfBad "bad xref").2.2 (by rfl)

/-- The result of `splitCh` is never the empty list. -/
theorem splitCh_ne_nil (sep : Char) (cs : List Char) : splitCh sep cs ≠ [] := by
  induction cs with
  | nil => simp [splitCh]
  | cons c cs ih =>
    simp only [splitCh]
    split
    · simp
    · cases h : splitCh sep cs with
      | nil => simp
      | cons g gs => simp

/-- Splitting distributes over an occurrence of the separator. -/
theorem splitCh_append_sep (sep : Char) (x y : List Char) :
    splitCh sep (x ++ sep :: y) = splitCh sep x ++ splitCh sep y := by
  induction x with
  | nil => simp [splitCh]
  | cons c cs ih =>
    by_cases hc : c = sep
    · subst hc
      show splitCh c (c :: (cs ++ c :: y)) = splitCh c (c :: cs) ++ splitCh c y
      simp [splitCh, ih]
    · show splitCh sep (c :: (cs ++ sep :: y)) = splitCh sep (c :: cs) ++ splitCh sep y
      simp only [splitCh, if_neg hc]
      rw [ih]
      cases h : splitCh sep cs with
      | nil => exact absurd h (splitCh_ne_nil sep cs)
      | cons g gs => simp [h]

/-- A list without the separator splits into itself. -/
theorem splitCh_no_sep (sep : Char) (cs : List Char) (h : sep ∉ cs) :
    splitCh sep cs = [cs] := by
  induction cs with
  | nil => rfl
  | cons c cs ih =>
    rw [List.mem_cons, not_or] at h
    have hcs : ¬c = sep := fun hh => h.1 hh.symm
    simp only [splitCh, if_neg hcs, ih h.2]

/-- A single newline-free, non-blank line followed by a newline forms exactly
one relay line. -/
theorem chunkLines_single (m : String) (hnl : '\n' ∉ m.data) (ht : jsTrim m ≠ "") :
    chunkLines (m ++ "\n") = [m] := by
  have htb : (jsTrim m != "") = true := bne_iff_ne.mpr ht
  have h0 : (jsTrim "" != "") = false := rfl
  unfold chunkLines jsSplit
  rw [show (m ++ "\n").data = m.data ++ '\n' :: ([] : List Char) from String.data_append m "\n",
    splitCh_append_sep, splitCh_no_sep _ _ hnl]
  rw [show splitCh '\n' ([] : List Char) = [[]] from rfl]
  rw [show ([m.data] ++ [([] : List Char)]).map (fun l => (⟨l⟩ : String)) = [m, ""] from rfl]
  simp [List.filter, htb, h0]

/-- A line that is not the `[DONE]` sentinel and yields no truthy delta is
skipped: no write, no termination. -/
theorem lineStep_skip (m : String) (hd : stripData m ≠ "[DONE]")
    (hc : contentOf (stripData m) = none) : lineStep m = ([], false) := by
  simp [lineStep, hd, hc]

/-- Running the relay loop past a prefix that does not terminate. -/
theorem runLines_append (xs ys : List String) (h : (runLines xs).2 = false) :
    runLines (xs ++ ys) = ((runLines xs).1 ++ (runLines ys).1, (runLines ys).2) := by
  induction xs with
  | nil => simp [runLines]
  | cons l ls ih =>
    rcases hstep : lineStep l with ⟨evs, stop⟩
    cases stop
    · simp only [List.cons_append, runLines, hstep] at h ⊢
      simp only [Bool.false_eq_true, if_false, List.append_eq] at h ⊢
      rw [ih h]
      simp [List.append_assoc]
    · simp [runLines, hstep] at h

/-- Running the relay loop past a prefix that terminates at `[DONE]`. -/
theorem runLines_append_stop (xs ys : List String) (h : (runLines xs).2 = true) :
    runLines (xs ++ ys) = runLines xs := by
  induction xs with
  | nil => simp [runLines] at h
  | cons l ls ih =>
    rcases hstep : lineStep l with ⟨evs, stop⟩
    cases stop
    · simp only [List.cons_append, runLines, hstep] at h ⊢
      simp only [Bool.false_eq_true, if_false, List.append_eq] at h ⊢
      rw [ih h]
    · simp only [List.cons_append, runLines, hstep]
      simp

/-- Running the chunk loop past a prefix that does not terminate. -/
theorem runChunks_append (xs ys : List String) (h : (runChunks xs).2 = false) :
    runChunks (xs ++ ys) = ((runChunks xs).1 ++ (runChunks ys).1, (runChunks ys).2) := by
  induction xs with
  | nil => simp [runChunks]
  | cons c cs ih =>
    rcases hstep : runLines (chunkLines c) with ⟨evs, stop⟩
    cases stop
    · simp only [List.cons_append, runChunks, hstep] at h ⊢
      simp only [Bool.false_eq_true, if_false, List.append_eq] at h ⊢
      rw [ih h]
      simp [List.append_assoc]
    · simp [runChunks, hstep] at h

/-- Running the chunk loop past a prefix that terminates at `[DONE]`. -/
theorem runChunks_append_stop (xs ys : List String) (h : (runChunks xs).2 = true) :
    runChunks (xs ++ ys) = runChunks xs := by
  induction xs with
  | nil => simp [runChunks] at h
  | cons c cs ih =>
    rcases hstep : runLines (chunkLines c) with ⟨evs, stop⟩
    cases stop
    · simp only [List.cons_append, runChunks, hstep] at h ⊢
      simp only [Bool.false_eq_true, if_false, List.append_eq] at h ⊢
      rw [ih h]
    · simp only [List.cons_append, runChunks, hstep]
      simp

/-- A delta value the relay decides to write is always truthy (the
`if (content)` guard of src/index.js line 105). -/
theorem contentOf_truthy {m : String} {v : JVal} (h : contentOf m = some v) :
    truthy v = true := by
  cases hp : jsonParse m with
  | none => simp [contentOf, hp] at h
  | some parsed =>
    cases hd : deltaOfParsed parsed with
    | error u => simp [contentOf, hp, hd] at h
    | ok o =>
      cases o with
      | none => simp [contentOf, hp, hd] at h
      | some w =>
        simp only [contentOf, hp, hd] at h
        by_cases ht : truthy w = true
        · rw [if_pos ht] at h
          injection h with h2
          rw [← h2]; exact ht
        · rw [if_neg ht] at h
          exact absurd h (by simp)

/-- Every loop iteration over a line either terminates with the `[DONE]`
write, skips the line, or writes one truthy delta event. -/
theorem lineStep_cases (l : String) :
    lineStep l = ([.write doneWrite, .ended], true)
    ∨ lineStep l = ([], false)
    ∨ ∃ v, truthy v = true ∧ lineStep l = ([.write (deltaEvent v)], false) := by
  by_cases h : stripData l = "[DONE]"
  · left; simp [lineStep, h]
  · cases hc : contentOf (stripData l) with
    | none => right; left; simp [lineStep, h, hc]
    | some v => right; right; exact ⟨v, contentOf_truthy hc, by simp [lineStep, h, hc]⟩

/-- A list of response events consisting only of truthy delta writes. -/
def deltaOnly (evs : List REvent) : Prop :=
  ∀ e ∈ evs, ∃ v, truthy v = true ∧ e = .write (deltaEvent v)

/-- Delta-only event lists are closed under concatenation. -/
theorem deltaOnly_append {a b : List REvent} (ha : deltaOnly a) (hb : deltaOnly b) :
    deltaOnly (a ++ b) := by
  intro e he
  rcases List.mem_append.1 he with h | h
  · exact ha e h
  · exact hb e h

/-- Shape of a relay pass over the lines of one chunk: either it does not
terminate and has written only truthy delta events, or it terminated at
`[DONE]`, writing delta events, the terminal line, and ending the response. -/
theorem runLines_shape (ls : List String) :
    ((runLines ls).2 = false ∧ deltaOnly (runLines ls).1)
    ∨ ((runLines ls).2 = true
        ∧ ∃ evs, deltaOnly evs ∧ (runLines ls).1 = evs ++ [.write doneWrite, .ended]) := by
  induction ls with
  | nil => left; exact ⟨rfl, by intro e he; simp [runLines] at he⟩
  | cons l ls ih =>
    rcases lineStep_cases l with h | h | ⟨v, hv, h⟩
    · right
      refine ⟨by simp [runLines, h], [], by intro e he; simp at he, by simp [runLines, h]⟩
    · rcases ih with ⟨h2, hall⟩ | ⟨h2, evs, hall, he⟩
      · left
        constructor
        · simp [runLines, h, h2]
        · simp only [runLines, h]
          simpa using hall
      · right
        refine ⟨by simp [runLines, h, h2], evs, hall, ?_⟩
        simp [runLines, h, he]
    · rcases ih with ⟨h2, hall⟩ | ⟨h2, evs, hall, he⟩
      · left
        constructor
        · simp [runLines, h, h2]
        · simp only [runLines, h]
          intro e he
          simp only [Bool.false_eq_true, if_false, List.singleton_append, List.mem_cons] at he
          rcases he with he | he
          · exact ⟨v, hv, he⟩
          · exact hall e he
      · right
        refine ⟨by simp [runLines, h, h2], .write (deltaEvent v) :: evs, ?_, ?_⟩
        · intro e he
          rcases List.mem_cons.1 he with he | he
          · exact ⟨v, hv, he⟩
          · exact hall e he
        · simp [runLines, h, he]

/-- Shape of a relay pass over a list of chunks. -/
theorem runChunks_shape (chunks : List String) :
    ((runChunks chunks).2 = false ∧ deltaOnly (runChunks chunks).1)
    ∨ ((runChunks chunks).2 = true
        ∧ ∃ evs, deltaOnly evs ∧ (runChunks chunks).1 = evs ++ [.write doneWrite, .ended]) := by
  induction chunks with
  | nil => left; exact ⟨rfl, by intro e he; simp [runChunks] at he⟩
  | cons c cs ih =>
    rcases runLines_shape (chunkLines c) with ⟨h2, hall⟩ | ⟨h2, evs, hall, he⟩
    · rcases ih with ⟨hc2, hcall⟩ | ⟨hc2, evs2, hall2, he2⟩
      · left
        constructor
        · simp [runChunks, h2, hc2]
        · simp only [runChunks, h2]
          simp only [Bool.false_eq_true, if_false]
          exact deltaOnly_append hall hcall
      · right
        refine ⟨by simp [runChunks, h2, hc2], (runLines (chunkLines c)).1 ++ evs2,
          deltaOnly_append hall hall2, ?_⟩
        simp [runChunks, h2, he2, List.append_assoc]
    · right
      refine ⟨by simp [runChunks, h2], evs, hall, ?_⟩
      simp [runChunks, h2, he]

/-- Every complete relay run is a list of truthy delta writes followed by the
single terminal `[DONE]` write and the response end. -/
theorem processStream_shape (chunks : List String) :
    ∃ evs, deltaOnly evs ∧ processStream chunks = evs ++ [.write doneWrite, .ended] := by
  unfold processStream
  rcases runChunks_shape chunks with ⟨h2, hall⟩ | ⟨h2, evs, hall, he⟩
  · exact ⟨(runChunks chunks).1, hall, by simp [h2]⟩
  · exact ⟨evs, hall, by simp [h2, he]⟩

/-- C9: a malformed line in the upstream stream is skipped without effect:
inserting, anywhere between chunks, a newline-terminated line that survives
the blank filter, is not the `[DONE]` sentinel and fails to parse, leaves the
client event sequence unchanged — so the deltas of all valid lines around it
are still forwarded and the stream still ends with the single terminal
`[DONE]` write followed by the response end. -/
theorem c9_malformed_line_skipped (pre post : List String) (m : String)
    (hnl : '\n' ∉ m.data) (ht : jsTrim m ≠ "")
    (hd : stripData m ≠ "[DONE]") (hc : contentOf (stripData m) = none) :
    processStream (pre ++ (m ++ "\n") :: post) = processStream (pre ++ post)
    ∧ ∃ evs, deltaOnly evs
        ∧ processStream (pre ++ post) = evs ++ [.write doneWrite, .ended] := by
  have hchunk : chunkLines (m ++ "\n") = [m] := chunkLines_single m hnl ht
  have hskip : runLines [m] = ([], false) := by
    simp [runLines, lineStep_skip m hd hc]
  have hmid : runChunks ((m ++ "\n") :: post) = runChunks post := by
    simp [runChunks, hchunk, hskip]
  have hrun : runChunks (pre ++ (m ++ "\n") :: post) = runChunks (pre ++ post) := by
    by_cases hp2 : (runChunks pre).2 = true
    · rw [runChunks_append_stop pre _ hp2, runChunks_append_stop pre _ hp2]
    · have hp2f : (runChunks pre).2 = false := by
        cases h : (runChunks pre).2
        · rfl
        · exact absurd h hp2
      rw [runChunks_append pre _ hp2f, runChunks_append pre _ hp2f, hmid]
  exact ⟨by simp [processStream, hrun], processStream_shape (pre ++ post)⟩

/-- Witness for `c9_malformed_line_skipped`: a malformed line between the `A`
and `B` delta lines changes nothing about the delivered events. -/
theorem c9_malformed_line_skipped_witness :
    processStream
      ["data: \x7b\"choices\":[\x7b\"delta\":\x7b\"content\":\"A\"\x7d\x7d]\x7d\n",
       "data: \x7b\"oops\n",
       "data: \x7b\"choices\":[\x7b\"delta\":\x7b\"content\":\"B\"\x7d\x7d]\x7d\n"]
      = processStream
        ["data: \x7b\"choices\":[\x7b\"delta\":\x7b\"content\":\"A\"\x7d\x7d]\x7d\n",
         "data: \x7b\"choices\":[\x7b\"delta\":\x7b\"content\":\"B\"\x7d\x7d]\x7d\n"]
    ∧ processStream
        ["data: \x7b\"choices\":[\x7b\"delta\":\x7b\"content\":\"A\"\x7d\x7d]\x7d\n",
         "data: \x7b\"choices\":[\x7b\"delta\":\x7b\"content\":\"B\"\x7d\x7d]\x7d\n"]
      = [.write "data: \x7b\"content\":\"A\"\x7d\n\n",
         .write "data: \x7b\"content\":\"B\"\x7d\n\n",
         .write doneWrite, .ended] := by
  constructor
  · exact (c9_malformed_line_skipped
      ["data: \x7b\"choices\":[\x7b\"delta\":\x7b\"content\":\"A\"\x7d\x7d]\x7d\n"]
      ["data: \x7b\"choices\":[\x7b\"delta\":\x7b\"content\":\"B\"\x7d\x7d]\x7d\n"]
      "data: \x7b\"oops" (by decide) (by decide) (by decide) rfl).1
  · rfl

/-- Any list is a starting segment of nothing-to-match. -/
theorem listStartsWith_nil (l : List Char) : listStartsWith l [] = true := by
  cases l <;> rfl

/-- A list extended on the right still starts with itself. -/
theorem listStartsWith_append (p t : List Char) : listStartsWith (p ++ t) p = true := by
  induction p with
  | nil => simp [listStartsWith_nil]
  | cons c cs ih => simp [listStartsWith, ih]

/-- A delta event for a string value starts with `data: {"content":"`. -/
theorem delta_str_event_starts (s : String) :
    listStartsWith (deltaEvent (.str s)).data "data: \x7b\"content\":\"".data = true := by
  obtain ⟨rest, h⟩ :
      ∃ rest, (deltaEvent (.str s)).data = "data: \x7b\"content\":\"".data ++ rest :=
    ⟨_, rfl⟩
  rw [h]
  exact listStartsWith_append _ _

/-- C10 counterexample: an upstream line whose delta content is the JSON value
`true` produces the client write `data: {"content":true}\n\n`, which is a
non-terminal write but not of the claimed form `data: {"content": s}` with `s`
a (non-empty) JSON string — by `delta_str_event_starts`, every write of that
form starts with `data: {"content":"`, and this one does not. -/
theorem c10_counterexample :
    processStream ["data: \x7b\"choices\":[\x7b\"delta\":\x7b\"content\":true\x7d\x7d]\x7d\n"]
      = [.write "data: \x7b\"content\":true\x7d\n\n", .write doneWrite, .ended]
    ∧ listStartsWith ("data: \x7b\"content\":true\x7d\n\n").data
        "data: \x7b\"content\":\"".data = false
    ∧ "data: \x7b\"content\":true\x7d\n\n" ≠ doneWrite := by
  refine ⟨rfl, by decide, by decide⟩

/-- C10 amended: every client write of a relay run other than the terminal
`data: [DONE]` write is `data: ${JSON.stringify({content: v})}\n\n` for a
truthy delta value `v` — non-empty when a string, but possibly a non-string
JSON value, since the code checks only truthiness — and an upstream line
(other than the sentinel) whose parsed delta content is absent or the empty
string produces no client write and no termination at all. -/
theorem c10_no_empty_delta_events (chunks : List String) (e : REvent)
    (l : String) (parsed : JVal) (he : e ∈ processStream chunks)
    (hl : stripData l ≠ "[DONE]")
    (hp : jsonParse (stripData l) = some parsed)
    (hc : deltaOfParsed parsed = .ok none
      ∨ deltaOfParsed parsed = .ok (some (.str ""))) :
    (e = .ended ∨ e = .write doneWrite
      ∨ ∃ v, truthy v = true ∧ e = .write (deltaEvent v))
    ∧ lineStep l = ([], false) := by
  constructor
  · obtain ⟨evs, hall, heq⟩ := processStream_shape chunks
    rw [heq] at he
    rcases List.mem_append.1 he with h | h
    · right; right; exact hall e h
    · simp only [List.mem_cons, List.mem_singleton] at h
      rcases h with h | h | h
      · right; left; exact h
      · left; exact h
      · simp at h
  · have hnone : contentOf (stripData l) = none := by
      rcases hc with h | h <;> simp [contentOf, hp, h, truthy]
    exact lineStep_skip l hl hnone

/-- Witness for `c10_no_empty_delta_events`: the `A` delta write is a truthy
delta event, and a line carrying an empty-string delta writes nothing. -/
theorem c10_no_empty_delta_events_witness :
    (REvent.write "data: \x7b\"content\":\"A\"\x7d\n\n" = .ended
      ∨ REvent.write "data: \x7b\"content\":\"A\"\x7d\n\n" = .write doneWrite
      ∨ ∃ v, truthy v = true
          ∧ REvent.write "data: \x7b\"content\":\"A\"\x7d\n\n" = .write (deltaEvent v))
    ∧ lineStep "data: \x7b\"choices\":[\x7b\"delta\":\x7b\"content\":\"\"\x7d\x7d]\x7d"
        = ([], false) :=
  c10_no_empty_delta_events
    ["data: \x7b\"choices\":[\x7b\"delta\":\x7b\"content\":\"A\"\x7d\x7d]\x7d\n"]
    (.write "data: \x7b\"content\":\"A\"\x7d\n\n")
    "data: \x7b\"choices\":[\x7b\"delta\":\x7b\"content\":\"\"\x7d\x7d]\x7d"
    (.obj [("choices", .arr [.obj [("delta", .obj [("content", .str "")])]])])
    (by decide) (by decide) rfl (Or.inr rfl)

/-- Concatenation of the decoded chunks of an upstream stream. -/
def joinChunks : List String → String
  | [] => ""
  | c :: cs => c ++ joinChunks cs

/-- Relay line extraction distributes over a newline-terminated first chunk. -/
theorem chunkLines_append_line (p b : String) :
    chunkLines ((p ++ "\n") ++ b) = chunkLines (p ++ "\n") ++ chunkLines b := by
  unfold chunkLines jsSplit
  rw [show ((p ++ "\n") ++ b).data = p.data ++ '\n' :: b.data from by
      rw [String.data_append, String.data_append, List.append_assoc]; rfl,
    show (p ++ "\n").data = p.data ++ '\n' :: ([] : List Char) from String.data_append p "\n",
    splitCh_append_sep, splitCh_append_sep]
  rw [show splitCh '\n' ([] : List Char) = [[]] from rfl]
  simp [List.filter_append, show jsTrim "" = "" from rfl]

/-- Feeding the relay newline-terminated chunks one at a time is the same as
feeding it their concatenation as one chunk. -/
theorem runChunks_as_single (parts : List String) :
    runChunks (parts.map (fun p => p ++ "\n"))
      = runLines (chunkLines (joinChunks (parts.map (fun p => p ++ "\n")))) := by
  induction parts with
  | nil =>
    rw [show runLines (chunkLines (joinChunks ([].map (fun p => p ++ "\n"))))
        = ([], false) from rfl]
    rfl
  | cons p ps ih =>
    show runChunks ((p ++ "\n") :: ps.map (fun p => p ++ "\n"))
      = runLines (chunkLines ((p ++ "\n") ++ joinChunks (ps.map (fun p => p ++ "\n"))))
    rw [chunkLines_append_line]
    rcases hstep : runLines (chunkLines (p ++ "\n")) with ⟨evs, stop⟩
    cases stop
    · rw [runLines_append _ _ (by rw [hstep])]
      simp only [runChunks, hstep, Bool.false_eq_true, if_false]
      rw [ih]
    · rw [runLines_append_stop _ _ (by rw [hstep])]
      simp only [runChunks, hstep, if_true]

/-- C2 amended: re-chunking invariance holds exactly at line boundaries — for
every decomposition of the upstream text into newline-terminated read chunks,
the relay produces the same client events as for the whole text delivered in
one chunk.  (For chunk boundaries inside a `data:` line the invariance fails
and the split line's delta is dropped, see the counterexample: the relay
splits each chunk on newlines independently and keeps no partial-line buffer.
Multi-byte characters split across byte reads are already resolved by
`TextDecoder.decode(..., {stream: true})` before this stage.) -/
theorem c2_line_aligned_rechunking (parts : List String) :
    processStream (parts.map (fun p => p ++ "\n"))
      = processStream [joinChunks (parts.map (fun p => p ++ "\n"))] := by
  unfold processStream
  rw [runChunks_as_single]
  rcases hstep : runLines (chunkLines (joinChunks (parts.map (fun p => p ++ "\n"))))
    with ⟨evs, stop⟩
  cases stop
  · simp [runChunks, hstep]
  · simp [runChunks, hstep]
